import Mathlib

/-!
Verification of the linter's rule-evaluation and reporting engine.

This file embeds, as executable Lean definitions, the core of the linter:
per-node detachment checks (`checkDetachedStyles` in src/utils/lint.ts),
the cross-library provenance check (`checkLibrarySources`), the radius
audit log, exception-pattern matching, the scan traversal and selection
guards (`scanForIssues` and the SCAN_AGAIN handler in src/main.ts), and
issue deduplication/counting (ErrorDisplay.tsx).  Theorems about these
definitions settle the specification's claims.

Conventions of the embedding:
- JavaScript strings are Lean `String`s; the JS string operations used by
  the source (toLowerCase, trim, startsWith, endsWith, includes, split)
  are implemented over `List Char` so that every definition evaluates by
  kernel reduction (ASCII case mapping, which covers every string the
  source compares against).
- JS `undefined`/absent object properties become `Option`; JS truthiness
  of strings ("" falsy) is made explicit at each use site.
- The host (Figma) lookups `getStyleById`, `getVariableById` /
  `getVariableCollectionById` are a read-only resolver environment `Env`.
- Numeric radius/spacing values are `Nat` (the claims only involve
  non-negative integral values).
- The source's `console.log` calls and the free-text `debug` string that
  `createRadiusIssue` attaches (diagnostic scaffolding feeding only the
  report's DEBUG block) are not modelled; no claim mentions them.
-/

set_option maxHeartbeats 1000000

namespace Linter

/-! ## JS string primitives over `List Char` -/

/-- `ofChars l` packs a character list back into a `String`. -/
def ofChars (l : List Char) : String := ⟨l⟩

/-- ASCII `toLowerCase`, as used by the source for case-insensitive matches. -/
def jsToLower (s : String) : String := ofChars (s.data.map Char.toLower)

/-- Boolean list-prefix test (`a` is a prefix of `b`). -/
def isPre : List Char → List Char → Bool
  | [], _ => true
  | _ :: _, [] => false
  | a :: as, b :: bs => a = b && isPre as bs

/-- JS `s.startsWith(p)`. -/
def jsStartsWith (s p : String) : Bool := isPre p.data s.data

/-- JS `s.endsWith(p)`. -/
def jsEndsWith (s p : String) : Bool := isPre p.data.reverse s.data.reverse

/-- Helper for `jsIncludes`: does any suffix of the haystack start with the needle? -/
def tailsAnyPre (needle : List Char) : List Char → Bool
  | [] => isPre needle []
  | c :: rest => isPre needle (c :: rest) || tailsAnyPre needle rest

/-- JS `s.includes(sub)` (substring containment). -/
def jsIncludes (s sub : String) : Bool := tailsAnyPre sub.data s.data

/-- Whitespace as trimmed by JS `trim` (ASCII forms). -/
def isSpaceChar (c : Char) : Bool := c = ' ' || c = '\t' || c = '\n' || c = '\r'

/-- JS `s.trim()`. -/
def jsTrim (s : String) : String :=
  ofChars (((s.data.dropWhile isSpaceChar).reverse.dropWhile isSpaceChar).reverse)

/-- JS `s.slice(0, -1)`: drop the final character. -/
def jsDropLast (s : String) : String := ofChars s.data.dropLast

/-- Helper for `jsSplitComma`. -/
def splitCommaAux : List Char → List Char → List String
  | [], cur => [ofChars cur.reverse]
  | c :: rest, cur =>
    if c = ',' then ofChars cur.reverse :: splitCommaAux rest [] else splitCommaAux rest (c :: cur)

/-- JS `s.split(',')`. -/
def jsSplitComma (s : String) : List String := splitCommaAux s.data []

/-- JS template interpolation of a boolean: `"true"` / `"false"`. -/
def jsBool (b : Bool) : String := if b then "true" else "false"

/-! ## Data model (§3 of the spec; src/types/lint.ts and the Figma node shapes read by the source) -/

/-- The node kinds (`node.type`) the source distinguishes. -/
inductive NodeType where
  | FRAME | COMPONENT | INSTANCE | TEXT | RECTANGLE | GROUP | STAR | PAGE | DOCUMENT
deriving DecidableEq, Repr

/-- The six lint categories (`LintIssueType`). -/
inductive IssueType where
  | fill | stroke | text | radius | gap | padding
deriving DecidableEq, Repr

/-- A paint as inspected by the fill/stroke rules: only its `type` tag is read. -/
structure Paint where
  ptype : String
deriving DecidableEq, Repr

/-- A `fills` / `strokes` property value: `figma.mixed` or an array of paints. -/
inductive PaintsVal where
  | mixed
  | paints (ps : List Paint)
deriving DecidableEq, Repr

/-- A style-id property value: `figma.mixed` (a symbol) or a string id. -/
inductive StyleRef where
  | mixed
  | id (s : String)
deriving DecidableEq, Repr

/-- An aggregate `cornerRadius` value: `figma.mixed` or a number. -/
inductive RadiusVal where
  | mixed
  | num (n : Nat)
deriving DecidableEq, Repr

/-- The four individual corner radii (present together or not at all). -/
structure Corners where
  topLeft : Nat
  topRight : Nat
  bottomLeft : Nat
  bottomRight : Nat
deriving DecidableEq, Repr

/-- `layoutMode` values. -/
inductive LayoutMode where
  | NONE | HORIZONTAL | VERTICAL
deriving DecidableEq, Repr

/-- Rendering of a `LayoutMode` as the JS string stored in issues. -/
def LayoutMode.str : LayoutMode → String
  | .NONE => "NONE"
  | .HORIZONTAL => "HORIZONTAL"
  | .VERTICAL => "VERTICAL"

/-- Auto-layout properties read from frame-like nodes. -/
structure LayoutProps where
  mode : LayoutMode
  itemSpacing : Nat
  paddingLeft : Nat
  paddingRight : Nat
  paddingTop : Nat
  paddingBottom : Nat
  primaryAxisAlignItems : String
  layoutWrap : Option String
deriving DecidableEq, Repr

/-- The per-node snapshot read by the linter.  `Option` marks JS property
absence (`'prop' in node` false / `undefined`).  `boundVariables` maps a
property name to the binding's `id` (`none` id = a binding object without a
usable `id`, e.g. the array form used for `fills`).  `mainComponent` is the
instance's main component reduced to the only part the source reads from
it: its `boundVariables` property.  `parentType` is the snapshot of
`node.parent?.type`. -/
structure NodeProps where
  id : String
  name : String
  type : NodeType
  locked : Bool
  visible : Bool
  fills : Option PaintsVal := none
  strokes : Option PaintsVal := none
  fillStyleId : Option StyleRef := none
  strokeStyleId : Option StyleRef := none
  textStyleId : Option StyleRef := none
  effectStyleId : Option StyleRef := none
  cornerRadius : Option RadiusVal := none
  corners : Option Corners := none
  boundVariables : Option (List (String × Option String)) := none
  mainComponent : Option (Option (List (String × Option String))) := none
  parentType : Option NodeType := none
  layout : Option LayoutProps := none
deriving DecidableEq, Repr

/-- The node tree: a node's properties plus its ordered children. -/
inductive NTree where
  | node (props : NodeProps) (children : List NTree)

/-- Root properties of a tree node. -/
def NTree.props : NTree → NodeProps
  | .node p _ => p

/-- A reported lint issue (`LintIssue` in src/types/lint.ts). -/
structure LintIssue where
  nodeId : String
  nodeName : String
  type : IssueType
  message : String
  details : Option String := none
  sourceLibraryId : Option String := none
  sourceLibraryName : Option String := none
  nodeType : NodeType
  isAutoLayout : Bool
  layoutMode : String
  layoutAlign : String
  layoutWrap : String
deriving DecidableEq, Repr

/-- One record of the radius audit log (`RadiusAuditEntry`). -/
structure RadiusAuditEntry where
  nodeId : String
  nodeName : String
  nodeType : NodeType
  cornerRadius : String
  isIssue : Bool
  decisionPath : String
  bindingDetails : String
  inspectionDetails : String
  topLeftRadius : Option String := none
  topRightRadius : Option String := none
  bottomLeftRadius : Option String := none
  bottomRightRadius : Option String := none
deriving DecidableEq, Repr

/-- Scan settings (the module-level mutable state of src/main.ts read by a scan). -/
structure ScanSettings where
  selectedLibraryId : Option String
  libraryMap : List (String × String)
  styleExceptions : List String
  excludeLockedLayers : Bool
  excludeHiddenLayers : Bool
  checkFills : Bool
  checkStrokes : Bool
  checkTexts : Bool
  checkRadius : Bool
  checkGaps : Bool
  checkPadding : Bool
deriving Repr

/-- The host resolvers used by `checkLibrarySources`: `figma.getStyleById(id).name`
(`none` = style not found or lookup error), the library id of the collection of
`figma.variables.getVariableById(id)` (`none` = variable or collection
unresolvable, i.e. a local/undecomposable binding), and the variable's display
name (exposed by the resolver interface; whether the source consults it is
exactly what claim C5 is about). -/
structure Env where
  styleName : String → Option String
  varLibraryId : String → Option String
  varName : String → Option String

/-! ## Small helpers from src/utils/lint.ts -/

/-- JS truthiness of a style-id property (`node.fooStyleId`): absent or the
empty string are falsy; the `figma.mixed` symbol is truthy. -/
def styleRefTruthy : Option StyleRef → Bool
  | none => false
  | some .mixed => true
  | some (.id s) => s ≠ ""

/-- JS truthiness of the selected library id. -/
def strTruthy : Option String → Bool
  | none => false
  | some s => s ≠ ""

/-- `hasVariableBinding(node, property)`: the `boundVariables` object exists
and has a truthy entry for `property`. -/
def hasVariableBinding (p : NodeProps) (property : String) : Bool :=
  match p.boundVariables with
  | none => false
  | some bindings => (bindings.lookup property).isSome

/-- `hasVariableBinding` on an instance's main component (only its
`boundVariables` is ever read there). -/
def mainComponentHasBinding (mc : Option (List (String × Option String))) (property : String) : Bool :=
  match mc with
  | none => false
  | some bindings => (bindings.lookup property).isSome

/-- `hasAutoLayout(node)`: a `layoutMode` property exists and is not `NONE`. -/
def hasAutoLayout (p : NodeProps) : Bool :=
  match p.layout with
  | none => false
  | some l => l.mode ≠ LayoutMode.NONE

/-- `getAutoLayoutInfo(node)`, flattened into the four issue fields. -/
def autoLayoutInfo (p : NodeProps) : Bool × String × String × String :=
  match p.layout with
  | some l =>
    (l.mode ≠ LayoutMode.NONE, l.mode.str, l.primaryAxisAlignItems,
      if strTruthy l.layoutWrap then "WRAP" else "NO_WRAP")
  | none => (false, "NONE", "NONE", "NO_WRAP")

/-- `hasAutoSpacing(node)`: `primaryAxisAlignItems === 'SPACE_BETWEEN'`. -/
def hasAutoSpacing (p : NodeProps) : Bool :=
  match p.layout with
  | none => false
  | some l => l.primaryAxisAlignItems = "SPACE_BETWEEN"

/-! ## Issue constructors (src/utils/lint.ts) -/

/-- `createFillIssue`. -/
def createFillIssue (p : NodeProps) : LintIssue :=
  let a := autoLayoutInfo p
  { nodeId := p.id, nodeName := p.name, type := .fill,
    message := "Fill not linked to a style or variable", nodeType := p.type,
    isAutoLayout := a.1, layoutMode := a.2.1, layoutAlign := a.2.2.1, layoutWrap := a.2.2.2 }

/-- `createStrokeIssue`. -/
def createStrokeIssue (p : NodeProps) : LintIssue :=
  let a := autoLayoutInfo p
  { nodeId := p.id, nodeName := p.name, type := .stroke,
    message := "Stroke not linked to a style or variable", nodeType := p.type,
    isAutoLayout := a.1, layoutMode := a.2.1, layoutAlign := a.2.2.1, layoutWrap := a.2.2.2 }

/-- `createTextIssue`. -/
def createTextIssue (p : NodeProps) : LintIssue :=
  let a := autoLayoutInfo p
  { nodeId := p.id, nodeName := p.name, type := .text,
    message := "Text not linked to a style or variable", nodeType := p.type,
    isAutoLayout := a.1, layoutMode := a.2.1, layoutAlign := a.2.2.1, layoutWrap := a.2.2.2 }

/-- `createRadiusIssue` (its `debug` scaffolding string is not modelled). -/
def createRadiusIssue (p : NodeProps) (radiusDetails : String) : LintIssue :=
  let a := autoLayoutInfo p
  { nodeId := p.id, nodeName := p.name, type := .radius,
    message := "Corner radius not linked to a variable", details := some radiusDetails,
    nodeType := p.type,
    isAutoLayout := a.1, layoutMode := a.2.1, layoutAlign := a.2.2.1, layoutWrap := a.2.2.2 }

/-- `createGapIssue`. -/
def createGapIssue (p : NodeProps) : LintIssue :=
  let a := autoLayoutInfo p
  { nodeId := p.id, nodeName := p.name, type := .gap,
    message := "Item spacing not linked to a variable", nodeType := p.type,
    isAutoLayout := a.1, layoutMode := a.2.1, layoutAlign := a.2.2.1, layoutWrap := a.2.2.2 }

/-- `createPaddingIssue`. -/
def createPaddingIssue (p : NodeProps) (paddingDetails : String) : LintIssue :=
  let a := autoLayoutInfo p
  { nodeId := p.id, nodeName := p.name, type := .padding,
    message := "Padding not linked to a variable", details := some paddingDetails,
    nodeType := p.type,
    isAutoLayout := a.1, layoutMode := a.2.1, layoutAlign := a.2.2.1, layoutWrap := a.2.2.2 }

/-- The `typeText` switch inside `createWrongLibraryIssue`. -/
def wrongLibraryTypeText : IssueType → String
  | .fill => "Color Fill"
  | .stroke => "Color Stroke"
  | .text => "Text Style"
  | .radius => "Radius"
  | .gap => "Gap"
  | .padding => "Padding"

/-- `createWrongLibraryIssue`. -/
def createWrongLibraryIssue (p : NodeProps) (itemType : IssueType)
    (sourceLibraryId sourceLibraryName : String) : LintIssue :=
  let a := autoLayoutInfo p
  { nodeId := p.id, nodeName := p.name, type := itemType,
    message := "Wrong library/" ++ wrongLibraryTypeText itemType,
    sourceLibraryId := some sourceLibraryId, sourceLibraryName := some sourceLibraryName,
    nodeType := p.type,
    isAutoLayout := a.1, layoutMode := a.2.1, layoutAlign := a.2.2.1, layoutWrap := a.2.2.2 }

/-! ## Exception matching (§4.4; `matchesExceptions` in src/utils/lint.ts) -/

/-- One pattern test: trimmed-empty patterns never match; a trailing `*` makes a
case-insensitive prefix match on the rest, otherwise case-insensitive substring. -/
def patternMatches (name : String) (pat : String) : Bool :=
  let t := jsTrim pat
  if t = "" then false
  else if jsEndsWith t "*" then
    jsStartsWith (jsToLower name) (jsToLower (jsDropLast t))
  else jsIncludes (jsToLower name) (jsToLower t)

/-- `matchesExceptions(styleName, exceptions)`. -/
def matchesExceptions (styleName : String) (exceptions : List String) : Bool :=
  if exceptions.isEmpty then false
  else if jsTrim styleName = "" then false
  else exceptions.any (patternMatches styleName)

/-- The inline node-name exception check at the top of `checkLibrarySources`
(same per-pattern logic, but without the empty-name guard). -/
def nodeNameInExceptions (name : String) (exceptions : List String) : Bool :=
  exceptions.length > 0 && exceptions.any (patternMatches name)

/-! ## Style-id decomposition (`getStyleLibraryInfo`) -/

/-- `(libraryId, styleKeyId)` extracted from a style id. -/
structure StyleInfo where
  libraryId : String
  styleKeyId : String
deriving DecidableEq, Repr

/-- The `^[a-zA-Z]+:` style-type tag removal. -/
def dropStyleTag (s : String) : String :=
  let pre := s.data.takeWhile Char.isAlpha
  if pre ≠ [] ∧ (s.data.drop pre.length).head? = some ':' then
    ofChars (s.data.drop (pre.length + 1))
  else s

/-- `getStyleLibraryInfo(styleId)`: no comma means a local style; otherwise
strip the type tag, split on commas, and read library id / style key. -/
def getStyleLibraryInfo (styleId : String) : Option StyleInfo :=
  if styleId = "" then none
  else if ¬ jsIncludes styleId "," then some { libraryId := "local", styleKeyId := styleId }
  else
    let parts := jsSplitComma (dropStyleTag styleId)
    match parts with
    | l :: k :: _ => some { libraryId := l, styleKeyId := k }
    | _ => none

/-! ## Provenance checker (§4.3; `checkLibrarySources`) -/

/-- `libraryMap.get(id)?.name || 'Unknown library'`. -/
def libraryNameOf (libraryMap : List (String × String)) (libId : String) : String :=
  match libraryMap.lookup libId with
  | some n => if n ≠ "" then n else "Unknown library"
  | none => "Unknown library"

/-- The shared fill/stroke/text/effect style check: resolve the style id,
skip mixed ids, skip styles whose resolved name matches an exception, skip
local styles, and flag any other library than the selected one. -/
def checkStyleSource (env : Env) (p : NodeProps) (selectedLibraryId : String)
    (libraryMap : List (String × String)) (exceptions : List String)
    (itemType : IssueType) (ref : Option StyleRef) : List LintIssue :=
  match ref with
  | none => []
  | some .mixed => []
  | some (.id s) =>
    if s = "" then []
    else
      let styleInfo := getStyleLibraryInfo s
      let styleName := (env.styleName s).getD ""
      if styleName ≠ "" ∧ matchesExceptions styleName exceptions then []
      else if styleInfo.map (·.libraryId) = some "local" then []
      else
        match styleInfo with
        | some info =>
          if info.libraryId ≠ selectedLibraryId then
            [createWrongLibraryIssue p itemType info.libraryId (libraryNameOf libraryMap info.libraryId)]
          else []
        | none => []

/-- The property-name → issue-type inference for bound variables. -/
def issueTypeForProperty (propName : String) : IssueType :=
  if jsIncludes propName "radius" then .radius
  else if jsIncludes propName "gap" || jsIncludes propName "itemSpacing" then .gap
  else if jsIncludes propName "padding" then .padding
  else if jsIncludes propName "stroke" then .stroke
  else if jsIncludes propName "text" || jsIncludes propName "font" then .text
  else .fill

/-- The bound-variables loop of `checkLibrarySources`: for each binding with a
usable id, resolve the variable's collection library; flag when it resolves to
a truthy library id different from the selected one.  The variable's display
name (`env.varName`) is never consulted here. -/
def checkBoundVariableSources (env : Env) (p : NodeProps) (selectedLibraryId : String)
    (libraryMap : List (String × String)) : List LintIssue :=
  match p.boundVariables with
  | none => []
  | some boundVars =>
    boundVars.flatMap fun pr =>
      match pr.2 with
      | none => []
      | some varId =>
        if varId = "" then []
        else
          match env.varLibraryId varId with
          | none => []
          | some libId =>
            if libId ≠ "" ∧ libId ≠ selectedLibraryId then
              [createWrongLibraryIssue p (issueTypeForProperty pr.1) libId
                (libraryNameOf libraryMap libId)]
            else []

/-- `checkLibrarySources(node, selectedLibraryId, libraryMap, exceptions)`. -/
def checkLibrarySources (env : Env) (p : NodeProps) (selectedLibraryId : String)
    (libraryMap : List (String × String)) (exceptions : List String) : List LintIssue :=
  if nodeNameInExceptions p.name exceptions then []
  else
    checkStyleSource env p selectedLibraryId libraryMap exceptions .fill p.fillStyleId
    ++ checkStyleSource env p selectedLibraryId libraryMap exceptions .stroke p.strokeStyleId
    ++ (if p.type = NodeType.TEXT then
          checkStyleSource env p selectedLibraryId libraryMap exceptions .text p.textStyleId
        else [])
    ++ checkStyleSource env p selectedLibraryId libraryMap exceptions .fill p.effectStyleId
    ++ checkBoundVariableSources env p selectedLibraryId libraryMap

/-! ## Detachment rule evaluator (§4.2; `checkDetachedStyles`) -/

/-- The fill rule: first paint solid, no fill style, no `fills` variable binding. -/
def checkFillsPart (p : NodeProps) : List LintIssue :=
  match p.fills with
  | none => []
  | some .mixed => []
  | some (.paints ps) =>
    match ps with
    | [] => []
    | f :: _ =>
      if f.ptype = "SOLID" ∧ ¬ styleRefTruthy p.fillStyleId ∧ ¬ hasVariableBinding p "fills" then
        [createFillIssue p]
      else []

/-- The stroke rule, symmetric to the fill rule. -/
def checkStrokesPart (p : NodeProps) : List LintIssue :=
  match p.strokes with
  | none => []
  | some .mixed => []
  | some (.paints ps) =>
    match ps with
    | [] => []
    | f :: _ =>
      if f.ptype = "SOLID" ∧ ¬ styleRefTruthy p.strokeStyleId ∧ ¬ hasVariableBinding p "strokes" then
        [createStrokeIssue p]
      else []

/-- The text rule: TEXT nodes without a text style or any of the four text
variable bindings. -/
def checkTextPart (p : NodeProps) : List LintIssue :=
  if p.type = NodeType.TEXT then
    let hasTextStyle := styleRefTruthy p.textStyleId
    let hasTextVariable := hasVariableBinding p "characters" || hasVariableBinding p "textStyleId"
      || hasVariableBinding p "fontName" || hasVariableBinding p "fontSize"
    if ¬ hasTextStyle ∧ ¬ hasTextVariable then [createTextIssue p] else []
  else []

/-! ### The corner-radius decision inputs -/

/-- All four individual corner values equal and positive. -/
def hasUniformIndividualCorners (p : NodeProps) : Bool :=
  match p.corners with
  | none => false
  | some c =>
    c.topLeft = c.topRight ∧ c.topRight = c.bottomLeft ∧ c.bottomLeft = c.bottomRight ∧
      0 < c.topLeft

/-- An INSTANCE whose main component has a variable binding on the aggregate
radius or any individual corner. -/
def isInstanceWithInheritedVariables (p : NodeProps) : Bool :=
  p.type = NodeType.INSTANCE &&
    match p.mainComponent with
    | some mc =>
      mainComponentHasBinding mc "cornerRadius" || mainComponentHasBinding mc "topLeftRadius"
        || mainComponentHasBinding mc "topRightRadius" || mainComponentHasBinding mc "bottomLeftRadius"
        || mainComponentHasBinding mc "bottomRightRadius"
    | none => false

/-- Per-corner variable binding (the plain property or its `.value` form). -/
def hasTopLeftVariable (p : NodeProps) : Bool :=
  hasVariableBinding p "topLeftRadius" || hasVariableBinding p "topLeftRadius.value"

/-- Per-corner variable binding for the top-right corner. -/
def hasTopRightVariable (p : NodeProps) : Bool :=
  hasVariableBinding p "topRightRadius" || hasVariableBinding p "topRightRadius.value"

/-- Per-corner variable binding for the bottom-left corner. -/
def hasBottomLeftVariable (p : NodeProps) : Bool :=
  hasVariableBinding p "bottomLeftRadius" || hasVariableBinding p "bottomLeftRadius.value"

/-- Per-corner variable binding for the bottom-right corner. -/
def hasBottomRightVariable (p : NodeProps) : Bool :=
  hasVariableBinding p "bottomRightRadius" || hasVariableBinding p "bottomRightRadius.value"

/-- Any individual-corner variable binding. -/
def hasIndividualCornerVariables (p : NodeProps) : Bool :=
  hasTopLeftVariable p || hasTopRightVariable p || hasBottomLeftVariable p || hasBottomRightVariable p

/-- Each corner is zero/undefined or has its own variable binding. -/
def allCornersHaveVariables (p : NodeProps) : Bool :=
  match p.corners with
  | none => true
  | some c =>
    (c.topLeft = 0 ∨ hasTopLeftVariable p) ∧ (c.topRight = 0 ∨ hasTopRightVariable p) ∧
      (c.bottomLeft = 0 ∨ hasBottomLeftVariable p) ∧ (c.bottomRight = 0 ∨ hasBottomRightVariable p)

/-- The expanded any-radius-binding check, including inherited bindings and a
truthy effect style id. -/
def hasAnyRadiusBinding (p : NodeProps) : Bool :=
  hasVariableBinding p "cornerRadius" || hasVariableBinding p "cornerRadius.value"
    || hasVariableBinding p "cornerRadiusValue" || hasIndividualCornerVariables p
    || isInstanceWithInheritedVariables p || styleRefTruthy p.effectStyleId

/-- Branch A's condition (path "EXCLUDED: Has necessary variable bindings"). -/
def branchACond (p : NodeProps) : Bool :=
  (isInstanceWithInheritedVariables p || hasAnyRadiusBinding p) && allCornersHaveVariables p

/-- Branch B's condition (path "EXCLUDED: Uniform corners with variables"). -/
def branchBCond (p : NodeProps) : Bool :=
  hasUniformIndividualCorners p && hasAnyRadiusBinding p && allCornersHaveVariables p

/-- Branch C's condition: the aggregate radius is a positive number and the
`cornerRadius` property has no variable binding. -/
def branchCCond (p : NodeProps) : Bool :=
  (match p.cornerRadius with
   | some (.num n) => 0 < n
   | _ => false) && ¬ hasVariableBinding p "cornerRadius"

/-- `isComponentOrInstance`. -/
def isComponentOrInstance (p : NodeProps) : Bool :=
  p.type = NodeType.COMPONENT ∨ p.type = NodeType.INSTANCE

/-- `isInsideComponentInstance`: a component/instance itself, or the direct
child of one. -/
def isInsideComponentInstance (p : NodeProps) : Bool :=
  isComponentOrInstance p ||
    match p.parentType with
    | some t => t = NodeType.COMPONENT ∨ t = NodeType.INSTANCE
    | none => false

/-- `isIndividualModeConsistent`: uniform individual corners matching the
aggregate value. -/
def isIndividualModeConsistent (p : NodeProps) : Bool :=
  hasUniformIndividualCorners p &&
    match p.corners, p.cornerRadius with
    | some c, some (.num n) => c.topLeft = n
    | _, _ => false

/-- The `bindingDetails` audit string. -/
def bindingDetailsStr (p : NodeProps) : String :=
  "cornerRadius: " ++ jsBool (hasVariableBinding p "cornerRadius")
    ++ ", topLeft: " ++ jsBool (hasTopLeftVariable p)
    ++ ", topRight: " ++ jsBool (hasTopRightVariable p)
    ++ ", bottomLeft: " ++ jsBool (hasBottomLeftVariable p)
    ++ ", bottomRight: " ++ jsBool (hasBottomRightVariable p)
    ++ ", inherited: " ++ jsBool (isInstanceWithInheritedVariables p)

/-- The `inspectionDetails` audit string. -/
def inspectionDetailsStr (p : NodeProps) : String :=
  "isComponentOrInstance: " ++ jsBool (isComponentOrInstance p)
    ++ ", isInsideComponent: " ++ jsBool (isInsideComponentInstance p)
    ++ ", hasUniformCorners: " ++ jsBool (hasUniformIndividualCorners p)
    ++ ", consistent: " ++ jsBool (isIndividualModeConsistent p)
    ++ ", allCornersHaveVars: " ++ jsBool (allCornersHaveVariables p)
    ++ ", anyRadiusBinding: " ++ jsBool (hasAnyRadiusBinding p)

/-- `convertToString` on the aggregate radius. -/
def radiusValStr : RadiusVal → String
  | .mixed => "mixed"
  | .num n => toString n

/-- `addRadiusAuditEntry` (the entry it appends; the corner fields are set
exactly when the individual radii exist). -/
def mkAuditEntry (p : NodeProps) (cr : RadiusVal) (isIssue : Bool) (decisionPath : String) :
    RadiusAuditEntry :=
  { nodeId := p.id, nodeName := p.name, nodeType := p.type,
    cornerRadius := radiusValStr cr, isIssue := isIssue, decisionPath := decisionPath,
    bindingDetails := bindingDetailsStr p, inspectionDetails := inspectionDetailsStr p,
    topLeftRadius := p.corners.map (fun c => toString c.topLeft),
    topRightRadius := p.corners.map (fun c => toString c.topRight),
    bottomLeftRadius := p.corners.map (fun c => toString c.bottomLeft),
    bottomRightRadius := p.corners.map (fun c => toString c.bottomRight) }

/-- Branch D's per-corner collection, in source order topLeft, topRight,
bottomLeft, bottomRight: corners with a positive value and no binding. -/
def missingBindings (p : NodeProps) (c : Corners) : List String :=
  (if 0 < c.topLeft ∧ ¬ hasTopLeftVariable p then ["topLeft: " ++ toString c.topLeft] else [])
  ++ (if 0 < c.topRight ∧ ¬ hasTopRightVariable p then ["topRight: " ++ toString c.topRight] else [])
  ++ (if 0 < c.bottomLeft ∧ ¬ hasBottomLeftVariable p then ["bottomLeft: " ++ toString c.bottomLeft] else [])
  ++ (if 0 < c.bottomRight ∧ ¬ hasBottomRightVariable p then ["bottomRight: " ++ toString c.bottomRight] else [])

/-- The corner-radius decision tree: issues produced and audit entries
appended for a node with a `cornerRadius` property. -/
def checkRadiusPart (p : NodeProps) : List LintIssue × List RadiusAuditEntry :=
  match p.cornerRadius with
  | none => ([], [])
  | some cr =>
    if branchACond p then
      ([], [mkAuditEntry p cr false "EXCLUDED: Has necessary variable bindings"])
    else if branchBCond p then
      ([], [mkAuditEntry p cr false "EXCLUDED: Uniform corners with variables"])
    else if branchCCond p then
      ([createRadiusIssue p "uniform"],
        [mkAuditEntry p cr true "ISSUE: Uniform radius without variables"])
    else
      match p.corners with
      | none => ([], [])
      | some c =>
        let missing := missingBindings p c
        if missing.isEmpty then
          ([], [mkAuditEntry p cr false "EXCLUDED: No corners missing variables"])
        else if hasUniformIndividualCorners p then
          ([createRadiusIssue p "uniform"],
            [mkAuditEntry p cr true "ISSUE: Uniform individual corners without variables"])
        else
          ([createRadiusIssue p ("mixed (" ++ String.intercalate ", " missing ++ ")")],
            [mkAuditEntry p cr true
              ("ISSUE: Mixed corners without variables (" ++ String.intercalate ", " missing ++ ")")])

/-- The gap rule: active auto-layout, positive unbound item spacing, not
SPACE_BETWEEN spacing. -/
def checkGapPart (p : NodeProps) : List LintIssue :=
  match p.layout with
  | none => []
  | some l =>
    if l.mode ≠ LayoutMode.NONE then
      if 0 < l.itemSpacing ∧ ¬ hasVariableBinding p "itemSpacing" ∧ ¬ hasAutoSpacing p then
        [createGapIssue p]
      else []
    else []

/-- The padding rule: one consolidated issue with details all/horizontal/vertical. -/
def checkPaddingPart (p : NodeProps) : List LintIssue :=
  match p.layout with
  | none => []
  | some l =>
    if l.mode ≠ LayoutMode.NONE then
      let hasHorizontalPaddingIssue :=
        (0 < l.paddingLeft ∧ ¬ hasVariableBinding p "paddingLeft") ∨
          (0 < l.paddingRight ∧ ¬ hasVariableBinding p "paddingRight")
      let hasVerticalPaddingIssue :=
        (0 < l.paddingTop ∧ ¬ hasVariableBinding p "paddingTop") ∨
          (0 < l.paddingBottom ∧ ¬ hasVariableBinding p "paddingBottom")
      if hasHorizontalPaddingIssue ∨ hasVerticalPaddingIssue then
        [createPaddingIssue p
          (if hasHorizontalPaddingIssue ∧ ¬ hasVerticalPaddingIssue then "horizontal"
           else if ¬ hasHorizontalPaddingIssue ∧ hasVerticalPaddingIssue then "vertical"
           else "all")]
      else []
    else []

/-- `checkDetachedStyles(node)`: locked or invisible nodes are skipped outright;
otherwise the fill, stroke, text, radius, gap and padding rules run in source
order.  The second component is the sequence of radius audit entries the call
appends to the global audit log. -/
def checkDetachedStyles (p : NodeProps) : List LintIssue × List RadiusAuditEntry :=
  if p.locked ∨ ¬ p.visible then ([], [])
  else
    let r := checkRadiusPart p
    (checkFillsPart p ++ checkStrokesPart p ++ checkTextPart p ++ r.1
      ++ checkGapPart p ++ checkPaddingPart p, r.2)

/-! ## Traversal & filtering engine (§4.1; `scanForIssues` and helpers in src/main.ts) -/

/-- Whether a node has at least one checkable property group. -/
def hasCheckableProps (p : NodeProps) : Bool :=
  p.type = NodeType.TEXT ∨ p.fills.isSome ∨ p.strokes.isSome ∨ p.cornerRadius.isSome ∨
    hasAutoLayout p = true

/-- `isLintableNode(node)`: never pages/documents; locked/hidden nodes only
when the corresponding exclude setting is off; and some checkable property. -/
def isLintableNode (st : ScanSettings) (p : NodeProps) : Bool :=
  if p.type = NodeType.PAGE ∨ p.type = NodeType.DOCUMENT then false
  else if st.excludeLockedLayers ∧ p.locked then false
  else if st.excludeHiddenLayers ∧ ¬ p.visible then false
  else hasCheckableProps p

/-- The per-issue-type gate applied to detachment issues. -/
def issueEnabled (st : ScanSettings) (i : LintIssue) : Bool :=
  match i.type with
  | .fill => st.checkFills
  | .stroke => st.checkStrokes
  | .text => st.checkTexts
  | .radius => st.checkRadius
  | .gap => st.checkGaps
  | .padding => st.checkPadding

/-- The child filter applied before recursing (`children.filter(...)`). -/
def keepChild (st : ScanSettings) (p : NodeProps) : Bool :=
  ¬ (st.excludeLockedLayers ∧ p.locked) ∧ ¬ (st.excludeHiddenLayers ∧ ¬ p.visible)

/-- The per-node body of `traverse`: detachment issues filtered by the
category flags, then (when a library is selected) the unfiltered
wrong-library issues. -/
def nodeScan (st : ScanSettings) (env : Env) (p : NodeProps) :
    List LintIssue × List RadiusAuditEntry :=
  if isLintableNode st p then
    let d := checkDetachedStyles p
    let filteredDetached := d.1.filter (fun i => issueEnabled st i)
    let libraryIssues :=
      if strTruthy st.selectedLibraryId then
        checkLibrarySources env p (st.selectedLibraryId.getD "") st.libraryMap st.styleExceptions
      else []
    (filteredDetached ++ libraryIssues, d.2)
  else ([], [])

mutual
/-- `traverse(node)`: evaluate the node, then its (filtered) children in order. -/
def traverseNode (st : ScanSettings) (env : Env) : NTree → List LintIssue × List RadiusAuditEntry
  | .node p cs =>
    let here := nodeScan st env p
    let below := traverseChildren st env cs
    (here.1 ++ below.1, here.2 ++ below.2)

/-- The filtered recursion over a node's children. -/
def traverseChildren (st : ScanSettings) (env : Env) :
    List NTree → List LintIssue × List RadiusAuditEntry
  | [] => ([], [])
  | c :: rest =>
    let head := if keepChild st c.props then traverseNode st env c else ([], [])
    let tail := traverseChildren st env rest
    (head.1 ++ tail.1, head.2 ++ tail.2)
end

/-- The root loop of `scanForIssues` (roots themselves are not filtered). -/
def traverseRoots (st : ScanSettings) (env : Env) :
    List NTree → List LintIssue × List RadiusAuditEntry
  | [] => ([], [])
  | t :: ts =>
    let head := traverseNode st env t
    let tail := traverseRoots st env ts
    (head.1 ++ tail.1, head.2 ++ tail.2)

/-- `scanForIssues()`: the issue list it returns and the radius audit entries
it appends to the global log. -/
def scanForIssues (st : ScanSettings) (env : Env) (roots : List NTree) :
    List LintIssue × List RadiusAuditEntry :=
  traverseRoots st env roots

/-- One scan against the process-wide audit log: src/main.ts imports
`clearRadiusAuditLog` but never calls it, so a scan only appends to the
log it found. -/
def scanSession (st : ScanSettings) (env : Env) (roots : List NTree)
    (auditLog : List RadiusAuditEntry) : List LintIssue × List RadiusAuditEntry :=
  let r := scanForIssues st env roots
  (r.1, auditLog ++ r.2)

/-- `countFrames` in the SCAN_AGAIN handler: counts only frame/component/
instance nodes and recurses only inside them. -/
def isFrameLike (t : NodeType) : Bool :=
  t = NodeType.FRAME ∨ t = NodeType.COMPONENT ∨ t = NodeType.INSTANCE

mutual
/-- Frame count of one subtree, as `countFrames` computes it. -/
def countFramesNode : NTree → Nat
  | .node p cs => if isFrameLike p.type then 1 + countFramesList cs else 0

/-- Frame count of a child list. -/
def countFramesList : List NTree → Nat
  | [] => 0
  | t :: ts => countFramesNode t + countFramesList ts
end

/-- Total frame count across the selection. -/
def totalFrameCount (roots : List NTree) : Nat :=
  roots.foldr (fun t acc => countFramesNode t + acc) 0

mutual
/-- The total number of nodes of every kind in a subtree (the measure the
spec's hard-cap sentence speaks about). -/
def totalNodesNode : NTree → Nat
  | .node _ cs => 1 + totalNodesList cs

/-- Total node count of a list of subtrees. -/
def totalNodesList : List NTree → Nat
  | [] => 0
  | t :: ts => totalNodesNode t + totalNodesList ts

end

/-- The SCAN_AGAIN handler's visible outcome. -/
inductive ScanOutcome where
  | selectionError (message : String)
  | sizeError (title message : String)
  | scanned (issues : List LintIssue)
deriving DecidableEq, Repr

/-- The SCAN_AGAIN handler: selection-count guards, the frame-count cap, then
a scan.  Both error outcomes emit an empty issue list and run no scan (the
audit log is returned unchanged). -/
def scanAgainHandler (st : ScanSettings) (env : Env) (auditLog : List RadiusAuditEntry)
    (selection : List NTree) : ScanOutcome × List RadiusAuditEntry :=
  if selection.length = 0 then
    (.selectionError "Please select 1-5 frames to lint", auditLog)
  else if selection.length > 5 then
    (.selectionError "Please select no more than 5 frames", auditLog)
  else if totalFrameCount selection > 5000 then
    (.sizeError "Too many frames detected"
      "More than 5000 nested frames detected. Select fewer frames and try again.", auditLog)
  else
    let r := scanSession st env selection auditLog
    (.scanned r.1, r.2)

/-! ## Issue aggregation (§4.5; ErrorDisplay.tsx) -/

/-- The JS string form of an issue type (the `LintIssueType` union values). -/
def IssueType.str : IssueType → String
  | .fill => "fill"
  | .stroke => "stroke"
  | .text => "text"
  | .radius => "radius"
  | .gap => "gap"
  | .padding => "padding"

/-- The deduplication key: radius issues use `(nodeId, type, details, message)`,
every other category `(nodeId, type, details?)` with a truthy-details suffix. -/
def dedupKey (i : LintIssue) : String :=
  if i.type = IssueType.radius then
    i.nodeId ++ "-" ++ i.type.str ++ "-" ++ i.details.getD "" ++ "-" ++ i.message
  else
    i.nodeId ++ "-" ++ i.type.str ++
      (match i.details with
       | some d => if d ≠ "" then "-" ++ d else ""
       | none => "")

/-- The `reduce` into a keyed record (`allDeduplicatedIssues`): an association
list in key-insertion order, keeping the first issue per key. -/
def allDeduplicatedIssues (issues : List LintIssue) : List (String × LintIssue) :=
  issues.foldl
    (fun acc i => if (acc.lookup (dedupKey i)).isSome then acc else acc ++ [(dedupKey i, i)]) []

/-- `Object.values` of the record: the deduplicated issues in first-occurrence
order (`allUniqueIssues`). -/
def allUniqueIssues (issues : List LintIssue) : List LintIssue :=
  (allDeduplicatedIssues issues).map Prod.snd

/-- The per-category counters computed from the deduplicated issues. -/
def countsByType (l : List LintIssue) : IssueType → Nat :=
  l.foldl (fun acc i => fun t => if t = i.type then acc i.type + 1 else acc t) (fun _ => 0)

/-- Modelled from the spec's words for §4.5 (the refinement target): keep only
the first occurrence per deduplication key, dropping later duplicates. -/
def keepFirstPerKey : List LintIssue → List LintIssue
  | [] => []
  | i :: rest => i :: keepFirstPerKey (rest.filter (fun j => dedupKey j ≠ dedupKey i))
termination_by l => l.length
decreasing_by
  simp only [List.length_cons]
  exact Nat.lt_succ_of_le (List.length_filter_le _ _)

/-! ## Concrete inputs used by the counterexamples and witnesses -/

/-- A property of scan outputs: the issue's category is enabled, or the issue
is a wrong-library issue (those carry a `sourceLibraryId`). -/
def enabledOrWrongLibrary (st : ScanSettings) (i : LintIssue) : Prop :=
  issueEnabled st i = true ∨ i.sourceLibraryId.isSome = true

/-- A resolver environment with no resolvable styles or variables. -/
def emptyEnv : Env :=
  { styleName := fun _ => none, varLibraryId := fun _ => none, varName := fun _ => none }

/-- Settings with every category flag off, no excludes, reference library "B". -/
def c1St : ScanSettings :=
  { selectedLibraryId := some "B", libraryMap := [("A", "LibA")], styleExceptions := [],
    excludeLockedLayers := false, excludeHiddenLayers := false,
    checkFills := false, checkStrokes := false, checkTexts := false, checkRadius := false,
    checkGaps := false, checkPadding := false }

/-- An environment resolving the style id "S:A,k" to a non-excepted name. -/
def c1Env : Env :=
  { styleName := fun s => if s = "S:A,k" then some "Some Style" else none,
    varLibraryId := fun _ => none, varName := fun _ => none }

/-- A frame with an empty fill list and a fill style bound in library "A". -/
def c1Node : NodeProps :=
  { id := "10", name := "box", type := .FRAME, locked := false, visible := true,
    fills := some (.paints []), fillStyleId := some (.id "S:A,k") }

/-- Settings for the double-scan run: no reference library, all categories on. -/
def c2St : ScanSettings :=
  { selectedLibraryId := none, libraryMap := [], styleExceptions := [],
    excludeLockedLayers := true, excludeHiddenLayers := true,
    checkFills := true, checkStrokes := true, checkTexts := true, checkRadius := true,
    checkGaps := true, checkPadding := true }

/-- A rectangle with aggregate corner radius 8 and no bindings. -/
def c2Node : NodeProps :=
  { id := "r1", name := "rect", type := .RECTANGLE, locked := false, visible := true,
    cornerRadius := some (.num 8) }

/-- The selection scanned twice in the C2 run. -/
def c2Roots : List NTree := [.node c2Node []]

/-- An unlocked, visible node with an aggregate-only corner radius of 0:
it has the corner-radius property but no individual corner radii. -/
def c3CexNode : NodeProps :=
  { id := "s1", name := "star", type := .STAR, locked := false, visible := true,
    cornerRadius := some (.num 0) }

/-- A witness node for the amended C3 statement: individual corners present. -/
def c3WitNode : NodeProps :=
  { id := "w3", name := "w3", type := .RECTANGLE, locked := false, visible := true,
    cornerRadius := some (.num 0), corners := some ⟨0, 0, 0, 0⟩ }

/-- Settings for the C4 runs: no reference library, nothing excluded. -/
def c4St : ScanSettings :=
  { selectedLibraryId := none, libraryMap := [], styleExceptions := [],
    excludeLockedLayers := false, excludeHiddenLayers := false,
    checkFills := true, checkStrokes := true, checkTexts := true, checkRadius := true,
    checkGaps := true, checkPadding := true }

/-- A rectangle with no checkable properties at all. -/
def c4LeafProps : NodeProps :=
  { id := "leaf", name := "leaf", type := .RECTANGLE, locked := false, visible := true }

/-- A group node with no checkable properties. -/
def c4GroupProps : NodeProps :=
  { id := "grp", name := "grp", type := .GROUP, locked := false, visible := true }

/-- A frame node with no checkable properties. -/
def c4FrameProps : NodeProps :=
  { id := "frm", name := "frm", type := .FRAME, locked := false, visible := true }

/-- 5002 nodes in total, but only the group is a root: the frame counter sees
zero frames because it never recurses into the non-frame group. -/
def c4CexSel : List NTree :=
  [.node c4GroupProps (List.replicate 5001 (.node c4LeafProps []))]

/-- 5001 frames: a frame with 5000 frame children. -/
def c4WitSel : List NTree :=
  [.node c4FrameProps (List.replicate 5000 (.node c4FrameProps []))]

/-- The exception list used in the C5 runs. -/
def c5Exc : List String := ["Retail UI/*"]

/-- An environment where variable "v1" lives in library "A" and its display
name matches the exception pattern. -/
def c5Env : Env :=
  { styleName := fun _ => none,
    varLibraryId := fun v => if v = "v1" then some "A" else none,
    varName := fun v => if v = "v1" then some "Retail UI/blue" else none }

/-- A frame with a `fills` variable bound to "v1". -/
def c5Node : NodeProps :=
  { id := "5", name := "Button", type := .FRAME, locked := false, visible := true,
    boundVariables := some [("fills", some "v1")] }

/-- An environment resolving style "S:A,k" to a name matching the exception. -/
def c5WitEnv : Env :=
  { styleName := fun s => if s = "S:A,k" then some "Retail UI/green" else none,
    varLibraryId := fun _ => none, varName := fun _ => none }

/-- A frame whose fill style is bound in library "A". -/
def c5WitNode : NodeProps :=
  { id := "w5", name := "w5", type := .FRAME, locked := false, visible := true,
    fills := some (.paints []), fillStyleId := some (.id "S:A,k") }

/-- A rectangle with aggregate radius 8 and no bindings (Branch C shape). -/
def c6Node : NodeProps :=
  { id := "c6", name := "c6", type := .RECTANGLE, locked := false, visible := true,
    cornerRadius := some (.num 8) }

/-- The spec's Branch D example: corners [8, 8, 0, 8] and no bindings. -/
def c7Node : NodeProps :=
  { id := "c7", name := "c7", type := .RECTANGLE, locked := false, visible := true,
    cornerRadius := some .mixed, corners := some ⟨8, 8, 0, 8⟩ }

/-- A node satisfying Branch B's condition (uniform corners, all bound):
Branch A's condition also holds on it. -/
def c9Node : NodeProps :=
  { id := "c9", name := "c9", type := .FRAME, locked := false, visible := true,
    cornerRadius := some (.num 8), corners := some ⟨8, 8, 8, 8⟩,
    boundVariables := some [("topLeftRadius", some "v"), ("topRightRadius", some "v"),
      ("bottomLeftRadius", some "v"), ("bottomRightRadius", some "v")] }

/-- A locked frame with a solid unbound fill and a fill style from library "A". -/
def c10Node : NodeProps :=
  { id := "c10", name := "c10", type := .FRAME, locked := true, visible := true,
    fills := some (.paints [⟨"SOLID"⟩]), fillStyleId := some (.id "S:A,k") }

/-! ## Helper lemmas -/

theorem checkFillsPart_types (p : NodeProps) : ∀ i ∈ checkFillsPart p, i.type = IssueType.fill := by
  intro i hi
  simp only [checkFillsPart] at hi
  split at hi <;> try simp at hi
  split at hi <;> try simp at hi
  simp_all [createFillIssue]

theorem checkStrokesPart_types (p : NodeProps) :
    ∀ i ∈ checkStrokesPart p, i.type = IssueType.stroke := by
  intro i hi
  simp only [checkStrokesPart] at hi
  split at hi <;> try simp at hi
  split at hi <;> try simp at hi
  simp_all [createStrokeIssue]

theorem checkTextPart_types (p : NodeProps) : ∀ i ∈ checkTextPart p, i.type = IssueType.text := by
  intro i hi
  simp only [checkTextPart] at hi
  split at hi <;> try simp at hi
  simp_all [createTextIssue]

theorem checkGapPart_types (p : NodeProps) : ∀ i ∈ checkGapPart p, i.type = IssueType.gap := by
  intro i hi
  simp only [checkGapPart] at hi
  split at hi <;> try simp at hi
  simp_all [createGapIssue]

theorem checkPaddingPart_types (p : NodeProps) :
    ∀ i ∈ checkPaddingPart p, i.type = IssueType.padding := by
  intro i hi
  simp only [checkPaddingPart] at hi
  split at hi <;> try simp at hi
  split at hi <;> try simp at hi
  all_goals (obtain ⟨-, -, rfl⟩ := hi; simp [createPaddingIssue])

theorem checkRadiusPart_types (p : NodeProps) :
    ∀ i ∈ (checkRadiusPart p).1, i.type = IssueType.radius := by
  intro i hi
  simp only [checkRadiusPart] at hi
  split at hi
  · simp at hi
  · split at hi <;> try simp at hi
    split at hi <;> try simp at hi
    split at hi <;> try simp at hi
    · simp_all [createRadiusIssue]
    · split at hi <;> try simp at hi
      split at hi <;> try simp at hi
      split at hi <;> simp_all [createRadiusIssue]

theorem filter_radius_of_other {l : List LintIssue} {t : IssueType}
    (h : ∀ i ∈ l, i.type = t) (ht : t ≠ IssueType.radius) :
    l.filter (fun i => i.type = IssueType.radius) = [] := by
  rw [List.filter_eq_nil_iff]
  intro i hi
  simp [h i hi, ht]

/-- Filtering a lintable node's detachment issues down to the radius category
gives exactly the radius rule's issues. -/
theorem detached_radius_filter (p : NodeProps) (hl : p.locked = false) (hv : p.visible = true) :
    (checkDetachedStyles p).1.filter (fun i => i.type = IssueType.radius)
      = (checkRadiusPart p).1 := by
  simp only [checkDetachedStyles]
  rw [if_neg (by simp [hl, hv])]
  simp only [List.filter_append]
  rw [filter_radius_of_other (checkFillsPart_types p) (by decide),
    filter_radius_of_other (checkStrokesPart_types p) (by decide),
    filter_radius_of_other (checkTextPart_types p) (by decide),
    filter_radius_of_other (checkGapPart_types p) (by decide),
    filter_radius_of_other (checkPaddingPart_types p) (by decide)]
  rw [List.filter_eq_self.mpr (by intro i hi; simp [checkRadiusPart_types p i hi])]
  simp

/-- The audit entries of a node evaluation are exactly the radius rule's. -/
theorem detached_entries (p : NodeProps) (hl : p.locked = false) (hv : p.visible = true) :
    (checkDetachedStyles p).2 = (checkRadiusPart p).2 := by
  simp only [checkDetachedStyles]
  rw [if_neg (by simp [hl, hv])]

/-- `matchesExceptions` never matches the empty name. -/
theorem matchesExceptions_ne_empty {n : String} {exc : List String}
    (h : matchesExceptions n exc = true) : n ≠ "" := by
  intro he
  subst he
  simp [matchesExceptions, jsTrim, ofChars] at h

/-- A Branch D mixed-corner decision path never collides with Branch B's path. -/
theorem mixed_path_ne_branchB (s : String) :
    ("ISSUE: Mixed corners without variables (" ++ s ++ ")")
      ≠ "EXCLUDED: Uniform corners with variables" := by
  intro h
  have h2 : ("ISSUE: Mixed corners without variables (" ++ s ++ ")").data.head?
      = ("EXCLUDED: Uniform corners with variables" : String).data.head? := by rw [h]
  have hd : ("ISSUE: Mixed corners without variables (" ++ s ++ ")").data
      = ("ISSUE: Mixed corners without variables (" : String).data ++ (s.data ++ (")" : String).data) := rfl
  rw [hd, List.head?_append] at h2
  rw [show (("ISSUE: Mixed corners without variables (" : String).data).head? = some 'I' by decide] at h2
  rw [show (("EXCLUDED: Uniform corners with variables" : String).data).head? = some 'E' by decide] at h2
  simp at h2

/-! ## Claim C2 -/

/-- C2 (code_bug evidence): `scanForIssues` never clears the audit log
(`clearRadiusAuditLog` is imported but never called), so scanning the same
one-rectangle selection twice yields the same issue list but a second
audit log equal to the first concatenated with itself — not equal to the
first, contradicting the claimed cleared-at-scan-start behaviour. -/
theorem scanSession_audit_log_accumulates :
    (scanSession c2St emptyEnv c2Roots []).1
        = (scanSession c2St emptyEnv c2Roots (scanSession c2St emptyEnv c2Roots []).2).1
      ∧ (scanSession c2St emptyEnv c2Roots []).2.length = 1
      ∧ (scanSession c2St emptyEnv c2Roots (scanSession c2St emptyEnv c2Roots []).2).2
          = (scanSession c2St emptyEnv c2Roots []).2 ++ (scanSession c2St emptyEnv c2Roots []).2
      ∧ (scanSession c2St emptyEnv c2Roots (scanSession c2St emptyEnv c2Roots []).2).2
          ≠ (scanSession c2St emptyEnv c2Roots []).2 := by
  refine ⟨rfl, rfl, rfl, ?_⟩
  decide

/-! ## Claim C3 -/

/-- C3 (counterexample): an unlocked, visible node with a corner-radius
property (aggregate value 0, no individual corners, no bindings) produces
zero audit entries, not exactly one. -/
theorem aggregate_only_radius_no_audit_entry :
    c3CexNode.cornerRadius.isSome = true ∧ c3CexNode.locked = false ∧
      c3CexNode.visible = true ∧ (checkDetachedStyles c3CexNode).2.length = 0 := by
  decide

/-- C3 (amended): for every unlocked, visible node that has a corner-radius
property together with the four individual corner radii, one evaluation of the
detachment rule evaluator appends exactly one audit entry, whatever branch is
taken; aggregate-only nodes can fall through with zero entries. -/
theorem radius_evaluation_one_audit_entry (p : NodeProps)
    (hl : p.locked = false) (hv : p.visible = true)
    (hcr : p.cornerRadius.isSome = true) (hic : p.corners.isSome = true) :
    (checkDetachedStyles p).2.length = 1 := by
  obtain ⟨cr, hcr'⟩ := Option.isSome_iff_exists.mp hcr
  obtain ⟨c, hc⟩ := Option.isSome_iff_exists.mp hic
  rw [detached_entries p hl hv]
  simp only [checkRadiusPart, hcr', hc]
  split_ifs <;> simp

/-- C3 witness: the amended statement applied to a concrete node. -/
theorem radius_evaluation_one_audit_entry_witness :
    (c3WitNode.locked = false ∧ c3WitNode.visible = true ∧
        c3WitNode.cornerRadius.isSome = true ∧ c3WitNode.corners.isSome = true) ∧
      (checkDetachedStyles c3WitNode).2.length = 1 :=
  ⟨by decide, radius_evaluation_one_audit_entry c3WitNode rfl rfl (by decide) (by decide)⟩

/-! ## Claim C9 -/

/-- C9: Branch B of the corner-radius decision tree is dead: its condition
implies Branch A's, and consequently no evaluation ever records the audit
path "EXCLUDED: Uniform corners with variables". -/
theorem branchB_unreachable (p : NodeProps) :
    (branchBCond p = true → branchACond p = true) ∧
      ∀ e ∈ (checkDetachedStyles p).2,
        e.decisionPath ≠ "EXCLUDED: Uniform corners with variables" := by
  have himp : branchBCond p = true → branchACond p = true := by
    intro h
    simp only [branchBCond, Bool.and_eq_true] at h
    simp only [branchACond, Bool.and_eq_true, Bool.or_eq_true]
    exact ⟨Or.inr h.1.2, h.2⟩
  refine ⟨himp, ?_⟩
  intro e he
  simp only [checkDetachedStyles] at he
  split at he
  · simp at he
  · simp only [checkRadiusPart] at he
    split at he
    · simp at he
    · split at he
      · simp_all [mkAuditEntry]
      · split at he
        · rename_i hA hB
          rw [himp hB] at hA
          simp at hA
        · split at he
          · simp_all [mkAuditEntry]
          · split at he
            · simp at he
            · split at he
              · simp_all [mkAuditEntry]
              · split at he
                · simp_all [mkAuditEntry]
                · simp only [List.mem_singleton] at he
                  subst he
                  simp only [mkAuditEntry]
                  exact mixed_path_ne_branchB _

/-- C9 witness: a node on which Branch B's condition actually holds (and so
does Branch A's), whose single audit entry records Branch A's path. -/
theorem branchB_unreachable_witness :
    (branchBCond c9Node = true ∧
        mkAuditEntry c9Node (.num 8) false "EXCLUDED: Has necessary variable bindings"
          ∈ (checkDetachedStyles c9Node).2) ∧
      branchACond c9Node = true ∧
      (mkAuditEntry c9Node (.num 8) false "EXCLUDED: Has necessary variable bindings").decisionPath
        ≠ "EXCLUDED: Uniform corners with variables" :=
  ⟨by decide,
    (branchB_unreachable c9Node).1 (by decide),
    (branchB_unreachable c9Node).2 _ (by decide)⟩

/-! ## Claim C10 -/

/-- C10: a locked or invisible node yields no detachment issues and no audit
entries, while the provenance checker ignores the locked/visible flags
entirely, and (with both exclude settings off) lintability does not depend on
them either — so such a node is still handed to the provenance checker. -/
theorem locked_hidden_skipped_by_detachment_only (p : NodeProps)
    (h : p.locked = true ∨ p.visible = false) :
    checkDetachedStyles p = ([], []) ∧
      (∀ (env : Env) (sel : String) (libMap : List (String × String)) (exc : List String)
          (b v : Bool),
        checkLibrarySources env { p with locked := b, visible := v } sel libMap exc
          = checkLibrarySources env p sel libMap exc) ∧
      (∀ st : ScanSettings, st.excludeLockedLayers = false → st.excludeHiddenLayers = false →
        isLintableNode st p
          = (decide ¬(p.type = NodeType.PAGE ∨ p.type = NodeType.DOCUMENT)
              && hasCheckableProps p)) := by
  refine ⟨?_, fun _ _ _ _ _ _ => rfl, ?_⟩
  · simp only [checkDetachedStyles]
    rcases h with h | h <;> simp [h]
  · intro st hel heh
    by_cases h1 : p.type = NodeType.PAGE ∨ p.type = NodeType.DOCUMENT <;>
      simp [isLintableNode, hel, heh, h1]

/-- C10 witness: a locked node with a solid unbound fill and a foreign fill
style: zero detachment issues, yet the provenance checker (which never reads
`locked`/`visible`) still reports its wrong-library fill style. -/
theorem locked_hidden_skipped_witness :
    (c10Node.locked = true ∨ c10Node.visible = false) ∧
      checkDetachedStyles c10Node = ([], []) ∧
      checkLibrarySources c1Env { c10Node with locked := false, visible := true } "B" [("A", "LibA")] []
        = checkLibrarySources c1Env c10Node "B" [("A", "LibA")] [] ∧
      checkLibrarySources c1Env c10Node "B" [("A", "LibA")] []
        = [createWrongLibraryIssue c10Node .fill "A" "LibA"] :=
  ⟨Or.inl rfl,
    (locked_hidden_skipped_by_detachment_only c10Node (Or.inl rfl)).1,
    (locked_hidden_skipped_by_detachment_only c10Node (Or.inl rfl)).2.1 c1Env "B" [("A", "LibA")] []
      false true,
    by decide⟩

/-! ## Claim C5 -/

/-- C5 (counterexample): a bound variable whose resolved display name matches
an exception pattern is still flagged as wrong-library: the variables loop of
`checkLibrarySources` never consults the display name. -/
theorem excepted_variable_still_flagged :
    matchesExceptions ((c5Env.varName "v1").getD "") c5Exc = true ∧
      checkLibrarySources c5Env c5Node "B" [("A", "LibA")] c5Exc
        = [createWrongLibraryIssue c5Node .fill "A" "LibA"] := by
  decide

/-- C5 (amended): the exception skip on the bound entity's resolved display
name applies to style bindings (fill, stroke, text, effect) — a matching
resolved style name suppresses the issue — while for bound variables the
display name is never consulted: the provenance check's result is invariant
under arbitrary changes of the variable-name resolver. -/
theorem exception_skip_styles_only (env : Env) (p : NodeProps) (sel : String)
    (libMap : List (String × String)) (exc : List String) :
    (∀ (ity : IssueType) (ref : Option StyleRef) (s : String), ref = some (StyleRef.id s) →
        matchesExceptions ((env.styleName s).getD "") exc = true →
        checkStyleSource env p sel libMap exc ity ref = []) ∧
      (∀ f, checkLibrarySources { env with varName := f } p sel libMap exc
          = checkLibrarySources env p sel libMap exc) := by
  refine ⟨?_, fun _ => rfl⟩
  intro ity ref s href hm
  subst href
  simp only [checkStyleSource]
  split_ifs with h1 h2
  · rfl
  · rfl
  · exact absurd ⟨matchesExceptions_ne_empty hm, hm⟩ h2
  · exact absurd ⟨matchesExceptions_ne_empty hm, hm⟩ h2

/-- C5 witness: the amended statement applied to a fill style whose resolved
name matches the exception, plus the variable-name invariance at a concrete
resolver change. -/
theorem exception_skip_styles_only_witness :
    (c5WitNode.fillStyleId = some (StyleRef.id "S:A,k") ∧
        matchesExceptions ((c5WitEnv.styleName "S:A,k").getD "") c5Exc = true) ∧
      checkStyleSource c5WitEnv c5WitNode "B" [("A", "LibA")] c5Exc .fill c5WitNode.fillStyleId = [] ∧
      checkLibrarySources { c5WitEnv with varName := fun _ => some "anything" } c5WitNode "B"
          [("A", "LibA")] c5Exc
        = checkLibrarySources c5WitEnv c5WitNode "B" [("A", "LibA")] c5Exc :=
  ⟨⟨rfl, by decide⟩,
    (exception_skip_styles_only c5WitEnv c5WitNode "B" [("A", "LibA")] c5Exc).1 .fill
      c5WitNode.fillStyleId "S:A,k" rfl (by decide),
    (exception_skip_styles_only c5WitEnv c5WitNode "B" [("A", "LibA")] c5Exc).2
      (fun _ => some "anything")⟩

/-! ## Claim C6 -/

/-- C6: on an unlocked, visible node not excluded by Branch A or Branch B
whose aggregate corner radius is a positive number with no `cornerRadius`
variable binding, exactly one radius issue with details "uniform" is emitted,
and its single audit entry is an issue with the uniform-radius path label. -/
theorem branchC_uniform_radius_issue (p : NodeProps) (r : Nat)
    (hl : p.locked = false) (hv : p.visible = true)
    (hcr : p.cornerRadius = some (.num r)) (hr : 0 < r)
    (hnb : hasVariableBinding p "cornerRadius" = false)
    (hA : branchACond p = false) (hB : branchBCond p = false) :
    (checkDetachedStyles p).1.filter (fun i => i.type = IssueType.radius)
        = [createRadiusIssue p "uniform"] ∧
      (checkDetachedStyles p).2
        = [mkAuditEntry p (.num r) true "ISSUE: Uniform radius without variables"] := by
  have hC : branchCCond p = true := by
    simp [branchCCond, hcr, hr, hnb]
  rw [detached_radius_filter p hl hv, detached_entries p hl hv]
  simp [checkRadiusPart, hcr, hA, hB, hC]

/-- C6 witness: the Branch C statement applied to a rectangle with aggregate
radius 8 and no bindings. -/
theorem branchC_uniform_radius_issue_witness :
    (c6Node.locked = false ∧ c6Node.visible = true ∧
        c6Node.cornerRadius = some (.num 8) ∧ 0 < 8 ∧
        hasVariableBinding c6Node "cornerRadius" = false ∧
        branchACond c6Node = false ∧ branchBCond c6Node = false) ∧
      (checkDetachedStyles c6Node).1.filter (fun i => i.type = IssueType.radius)
          = [createRadiusIssue c6Node "uniform"] ∧
      (checkDetachedStyles c6Node).2
        = [mkAuditEntry c6Node (.num 8) true "ISSUE: Uniform radius without variables"] :=
  ⟨by decide,
    branchC_uniform_radius_issue c6Node 8 rfl rfl rfl (by decide) (by decide) (by decide) (by decide)⟩

/-! ## Claim C7 -/

/-- C7: on a node reaching Branch D with individual corner values and a
non-empty missing list (corners collected in order topLeft, topRight,
bottomLeft, bottomRight), exactly one radius issue is emitted whose details is
"uniform" when all four corners are equal and otherwise "mixed (...)" listing
only the offending corners. -/
theorem branchD_corner_issue (p : NodeProps) (c : Corners)
    (hl : p.locked = false) (hv : p.visible = true)
    (hcr : p.cornerRadius.isSome = true) (hc : p.corners = some c)
    (hA : branchACond p = false) (hB : branchBCond p = false) (hC : branchCCond p = false)
    (hm : missingBindings p c ≠ []) :
    (checkDetachedStyles p).1.filter (fun i => i.type = IssueType.radius)
      = [createRadiusIssue p
          (if c.topLeft = c.topRight ∧ c.topRight = c.bottomLeft ∧ c.bottomLeft = c.bottomRight
           then "uniform"
           else "mixed (" ++ String.intercalate ", " (missingBindings p c) ++ ")")] := by
  obtain ⟨cr, hcr'⟩ := Option.isSome_iff_exists.mp hcr
  rw [detached_radius_filter p hl hv]
  simp only [checkRadiusPart, hcr', hA, hB, hC, hc]
  rw [if_neg (by simp), if_neg (by simp), if_neg (by simp)]
  rw [if_neg (by simp [List.isEmpty_iff, hm])]
  by_cases heq : c.topLeft = c.topRight ∧ c.topRight = c.bottomLeft ∧ c.bottomLeft = c.bottomRight
  · obtain ⟨e1, e2, e3⟩ := heq
    have htl : 0 < c.topLeft := by
      by_contra h0
      have h1 : c.topLeft = 0 := by omega
      have h2 : c.topRight = 0 := e1.symm.trans h1
      have h3 : c.bottomLeft = 0 := e2.symm.trans h2
      have h4 : c.bottomRight = 0 := e3.symm.trans h3
      exact hm (by simp [missingBindings, h1, h2, h3, h4])
    rw [if_pos (show hasUniformIndividualCorners p = true by
          simp only [hasUniformIndividualCorners, hc]
          simp [e1, e2, e3]
          omega),
      if_pos ⟨e1, e2, e3⟩]
  · rw [if_neg (show ¬ hasUniformIndividualCorners p = true by
          simp only [hasUniformIndividualCorners, hc]
          simp only [decide_eq_true_eq]
          intro hcontra
          exact heq ⟨hcontra.1, hcontra.2.1, hcontra.2.2.1⟩),
      if_neg heq]

/-- C7 witness: the spec's example — corners [8, 8, 0, 8] with no bindings
yield one radius issue with details "mixed (topLeft: 8, topRight: 8,
bottomRight: 8)". -/
theorem branchD_corner_issue_witness :
    (c7Node.locked = false ∧ c7Node.visible = true ∧ c7Node.cornerRadius.isSome = true ∧
        c7Node.corners = some ⟨8, 8, 0, 8⟩ ∧ branchACond c7Node = false ∧
        branchBCond c7Node = false ∧ branchCCond c7Node = false ∧
        missingBindings c7Node ⟨8, 8, 0, 8⟩ ≠ []) ∧
      (checkDetachedStyles c7Node).1.filter (fun i => i.type = IssueType.radius)
        = [createRadiusIssue c7Node "mixed (topLeft: 8, topRight: 8, bottomRight: 8)"] := by
  refine ⟨by decide, ?_⟩
  rw [branchD_corner_issue c7Node ⟨8, 8, 0, 8⟩ rfl rfl (by decide) rfl (by decide) (by decide)
    (by decide) (by decide)]
  decide

/-! ## Claim C1 -/

/-- Every issue produced by the shared style check is a wrong-library issue. -/
theorem checkStyleSource_sourceLib (env : Env) (p : NodeProps) (sel : String)
    (libMap : List (String × String)) (exc : List String) (ity : IssueType)
    (ref : Option StyleRef) :
    ∀ i ∈ checkStyleSource env p sel libMap exc ity ref, i.sourceLibraryId.isSome = true := by
  intro i hi
  simp only [checkStyleSource] at hi
  split at hi <;> try simp at hi
  all_goals try (split at hi <;> try simp at hi)
  all_goals simp_all [createWrongLibraryIssue]

/-- Every issue produced by the bound-variables loop is a wrong-library issue. -/
theorem checkBoundVariableSources_sourceLib (env : Env) (p : NodeProps) (sel : String)
    (libMap : List (String × String)) :
    ∀ i ∈ checkBoundVariableSources env p sel libMap, i.sourceLibraryId.isSome = true := by
  intro i hi
  simp only [checkBoundVariableSources] at hi
  split at hi <;> try simp at hi
  obtain ⟨a, b, hab, hi⟩ := hi
  split at hi <;> try simp at hi
  all_goals (obtain ⟨hs, hi⟩ := hi; split at hi <;> try simp at hi)
  all_goals simp_all [createWrongLibraryIssue]

/-- Every issue produced by the provenance checker carries a source library id. -/
theorem checkLibrarySources_sourceLib (env : Env) (p : NodeProps) (sel : String)
    (libMap : List (String × String)) (exc : List String) :
    ∀ i ∈ checkLibrarySources env p sel libMap exc, i.sourceLibraryId.isSome = true := by
  intro i hi
  simp only [checkLibrarySources] at hi
  split at hi
  · simp at hi
  · simp only [List.mem_append] at hi
    rcases hi with (((h | h) | h) | h) | h
    · exact checkStyleSource_sourceLib _ _ _ _ _ _ _ i h
    · exact checkStyleSource_sourceLib _ _ _ _ _ _ _ i h
    · split at h
      · exact checkStyleSource_sourceLib _ _ _ _ _ _ _ i h
      · simp at h
    · exact checkStyleSource_sourceLib _ _ _ _ _ _ _ i h
    · exact checkBoundVariableSources_sourceLib _ _ _ _ i h

/-- Every issue a single node contributes to a scan is either of an enabled
category or a wrong-library issue. -/
theorem nodeScan_issues_prop (st : ScanSettings) (env : Env) (p : NodeProps) :
    ∀ i ∈ (nodeScan st env p).1, enabledOrWrongLibrary st i := by
  intro i hi
  simp only [nodeScan] at hi
  split at hi
  · simp only [List.mem_append] at hi
    rcases hi with h | h
    · exact Or.inl (List.mem_filter.mp h).2
    · right
      split at h
      · exact checkLibrarySources_sourceLib _ _ _ _ _ i h
      · simp at h
  · simp at hi

mutual
theorem traverseNode_issues_prop (st : ScanSettings) (env : Env) (t : NTree) :
    ∀ i ∈ (traverseNode st env t).1, enabledOrWrongLibrary st i := by
  cases t with
  | node p cs =>
    intro i hi
    simp only [traverseNode, List.mem_append] at hi
    rcases hi with h | h
    · exact nodeScan_issues_prop st env p i h
    · exact traverseChildren_issues_prop st env cs i h

theorem traverseChildren_issues_prop (st : ScanSettings) (env : Env) (ts : List NTree) :
    ∀ i ∈ (traverseChildren st env ts).1, enabledOrWrongLibrary st i := by
  cases ts with
  | nil =>
    intro i hi
    simp [traverseChildren] at hi
  | cons c rest =>
    intro i hi
    simp only [traverseChildren, List.mem_append] at hi
    rcases hi with h | h
    · split at h
      · exact traverseNode_issues_prop st env c i h
      · simp at h
    · exact traverseChildren_issues_prop st env rest i h
end

theorem traverseRoots_issues_prop (st : ScanSettings) (env : Env) (ts : List NTree) :
    ∀ i ∈ (traverseRoots st env ts).1, enabledOrWrongLibrary st i := by
  induction ts with
  | nil =>
    intro i hi
    simp [traverseRoots] at hi
  | cons t rest ih =>
    intro i hi
    simp only [traverseRoots, List.mem_append] at hi
    rcases hi with h | h
    · exact traverseNode_issues_prop st env t i h
    · exact ih i h

/-- C1 (counterexample): with `checkFills` off, a node whose fill style lives
in the wrong library still contributes a fill-category issue to the scan
output — the category flags do not suppress wrong-library issues. -/
theorem disabled_category_wrong_library_reported :
    c1St.checkFills = false ∧
      (scanForIssues c1St c1Env [.node c1Node []]).1
        = [createWrongLibraryIssue c1Node .fill "A" "LibA"] ∧
      issueEnabled c1St (createWrongLibraryIssue c1Node .fill "A" "LibA") = false := by
  decide

/-- C1 (amended): every issue in a scan's output either belongs to a category
whose flag is enabled, or is a wrong-library issue (identified by its
`sourceLibraryId`); detachment issues of disabled categories never appear, but
wrong-library issues bypass the category flags. -/
theorem scan_category_flags_detachment_only (st : ScanSettings) (env : Env)
    (roots : List NTree) (i : LintIssue) (hi : i ∈ (scanForIssues st env roots).1) :
    issueEnabled st i = true ∨ i.sourceLibraryId.isSome = true :=
  traverseRoots_issues_prop st env roots i hi

/-- C1 witness: the amended statement applied to the wrong-library fill issue
of a concrete scan. -/
theorem scan_category_flags_detachment_only_witness :
    createWrongLibraryIssue c1Node .fill "A" "LibA" ∈ (scanForIssues c1St c1Env [.node c1Node []]).1
      ∧ (issueEnabled c1St (createWrongLibraryIssue c1Node .fill "A" "LibA") = true ∨
          (createWrongLibraryIssue c1Node .fill "A" "LibA").sourceLibraryId.isSome = true) :=
  ⟨by decide,
    scan_category_flags_detachment_only c1St c1Env [.node c1Node []] _ (by decide)⟩

/-! ## Claim C4 -/

theorem countFramesList_replicate (n : Nat) (t : NTree) :
    countFramesList (List.replicate n t) = n * countFramesNode t := by
  induction n with
  | zero => simp [countFramesList]
  | succ k ih =>
    simp only [List.replicate_succ, countFramesList, ih]
    ring

theorem totalNodesList_replicate (n : Nat) (t : NTree) :
    totalNodesList (List.replicate n t) = n * totalNodesNode t := by
  induction n with
  | zero => simp [totalNodesList]
  | succ k ih =>
    simp only [List.replicate_succ, totalNodesList, ih]
    ring

theorem totalNodes_node_replicate (p : NodeProps) (n : Nat) (t : NTree) :
    totalNodesList [NTree.node p (List.replicate n t)] = 1 + n * totalNodesNode t := by
  show totalNodesNode (NTree.node p (List.replicate n t)) + 0 = _
  rw [totalNodesNode, totalNodesList_replicate, Nat.add_zero]

theorem countFrames_node_replicate (p : NodeProps) (n : Nat) (t : NTree) :
    totalFrameCount [NTree.node p (List.replicate n t)]
      = if isFrameLike p.type then 1 + n * countFramesNode t else 0 := by
  show countFramesNode (NTree.node p (List.replicate n t)) + 0 = _
  rw [countFramesNode, countFramesList_replicate]
  split <;> simp

theorem traverseChildren_replicate (st : ScanSettings) (env : Env) (n : Nat) (t : NTree)
    (hk : keepChild st t.props = true) (ht : traverseNode st env t = ([], [])) :
    traverseChildren st env (List.replicate n t) = ([], []) := by
  induction n with
  | zero => simp [traverseChildren]
  | succ k ih =>
    simp [List.replicate_succ, traverseChildren, hk, ht, ih]

/-- C4 (counterexample): 5002 nodes in total (a group holding 5001
rectangles), yet the frame counter — which counts only frames, components and
instances, and never descends through other kinds — sees 0 frames, so the
handler runs a full scan and answers with a scanned result instead of the
claimed size-limit failure. -/
theorem node_cap_counts_only_frames :
    5000 < totalNodesList c4CexSel ∧ totalFrameCount c4CexSel = 0 ∧
      scanAgainHandler c4St emptyEnv [] c4CexSel = (.scanned [], []) := by
  have hleaftn : totalNodesNode (.node c4LeafProps []) = 1 := by decide
  have htotal : totalNodesList c4CexSel = 5002 := by
    have h := totalNodes_node_replicate c4GroupProps 5001 (.node c4LeafProps [])
    rw [hleaftn] at h
    exact h.trans (by norm_num)
  have hframes : totalFrameCount c4CexSel = 0 := by
    have h := countFrames_node_replicate c4GroupProps 5001 (.node c4LeafProps [])
    refine h.trans ?_
    decide
  have hrep : traverseChildren c4St emptyEnv (List.replicate 5001 (.node c4LeafProps []))
      = ([], []) :=
    traverseChildren_replicate c4St emptyEnv 5001 _ (by decide) (by decide)
  have hnsg : nodeScan c4St emptyEnv c4GroupProps = ([], []) := by decide
  have hscan : scanForIssues c4St emptyEnv c4CexSel = ([], []) := by
    show traverseRoots c4St emptyEnv
        [.node c4GroupProps (List.replicate 5001 (.node c4LeafProps []))] = ([], [])
    rw [traverseRoots, traverseNode, hrep, hnsg, traverseRoots]
    rfl
  refine ⟨by omega, hframes, ?_⟩
  simp only [scanAgainHandler, scanSession, hframes, hscan]
  rw [show c4CexSel.length = 1 from rfl]
  norm_num

/-- C4 (amended): when the selection is sized 1–5 and the number of
frame/component/instance nodes (counted by descending only through such
nodes) exceeds 5000, the handler aborts before evaluating anything: the
caller gets the size-limit failure with an empty issue set, and the audit log
is untouched. -/
theorem frame_cap_aborts_scan (st : ScanSettings) (env : Env)
    (auditLog : List RadiusAuditEntry) (sel : List NTree)
    (h1 : sel.length ≠ 0) (h2 : sel.length ≤ 5) (h3 : 5000 < totalFrameCount sel) :
    scanAgainHandler st env auditLog sel
      = (.sizeError "Too many frames detected"
          "More than 5000 nested frames detected. Select fewer frames and try again.", auditLog) := by
  simp only [scanAgainHandler]
  rw [if_neg h1, if_neg (by omega), if_pos (by omega)]

/-- C4 witness: the amended statement applied to a frame with 5000 frame
children (5001 frames in total). -/
theorem frame_cap_aborts_scan_witness :
    (c4WitSel.length ≠ 0 ∧ c4WitSel.length ≤ 5 ∧ 5000 < totalFrameCount c4WitSel) ∧
      scanAgainHandler c4St emptyEnv [] c4WitSel
        = (.sizeError "Too many frames detected"
            "More than 5000 nested frames detected. Select fewer frames and try again.", []) := by
  have hleafcf : countFramesNode (.node c4FrameProps []) = 1 := by decide
  have hcount : totalFrameCount c4WitSel = 5001 := by
    have h := countFrames_node_replicate c4FrameProps 5000 (.node c4FrameProps [])
    rw [hleafcf] at h
    refine h.trans ?_
    norm_num [isFrameLike, c4FrameProps]
  exact ⟨⟨by decide, by decide, by omega⟩,
    frame_cap_aborts_scan c4St emptyEnv [] c4WitSel (by decide) (by decide) (by omega)⟩

/-! ## Claim C8 -/

/-- The record-building fold of ErrorDisplay, generalized over the
accumulator: its values are the accumulator's followed by the first
occurrences of the not-yet-seen keys. -/
theorem allDeduplicatedIssues_foldl (l : List LintIssue) (acc : List (String × LintIssue)) :
    (l.foldl
        (fun acc i => if (acc.lookup (dedupKey i)).isSome then acc else acc ++ [(dedupKey i, i)])
        acc).map Prod.snd
      = acc.map Prod.snd
        ++ keepFirstPerKey (l.filter (fun i => ¬ (acc.lookup (dedupKey i)).isSome)) := by
  induction l generalizing acc with
  | nil => simp [keepFirstPerKey]
  | cons i rest ih =>
    simp only [List.foldl_cons]
    by_cases h : (acc.lookup (dedupKey i)).isSome
    · rw [if_pos h, ih]
      have hdrop : (i :: rest).filter (fun j => ¬ (acc.lookup (dedupKey j)).isSome)
          = rest.filter (fun j => ¬ (acc.lookup (dedupKey j)).isSome) := by
        rw [List.filter_cons]
        simp [h]
      rw [hdrop]
    · rw [if_neg h, ih]
      have hcons : (i :: rest).filter (fun j => ¬ (acc.lookup (dedupKey j)).isSome)
          = i :: rest.filter (fun j => ¬ (acc.lookup (dedupKey j)).isSome) := by
        rw [List.filter_cons]
        simp [h]
      rw [hcons, keepFirstPerKey]
      rw [List.map_append]
      simp only [List.map_cons, List.map_nil]
      rw [List.append_assoc, List.singleton_append]
      congr 3
      rw [List.filter_filter]
      apply List.filter_congr
      intro j _
      rw [List.lookup_append]
      by_cases h1 : (acc.lookup (dedupKey j)).isSome
      · obtain ⟨v, hv⟩ := Option.isSome_iff_exists.mp h1
        simp [hv]
      · have hnone : acc.lookup (dedupKey j) = none := Option.not_isSome_iff_eq_none.mp h1
        simp only [hnone, Option.none_or]
        by_cases h2 : dedupKey j = dedupKey i
        · simp [List.lookup, beq_iff_eq, h2]
        · have hb : (dedupKey j == dedupKey i) = false := beq_eq_false_iff_ne.mpr h2
          simp [List.lookup, hb, h2]

/-- The per-category counting fold of ErrorDisplay, generalized over the
accumulator. -/
theorem countsByType_foldl (l : List LintIssue) (acc : IssueType → Nat) (t : IssueType) :
    l.foldl (fun a i => fun u => if u = i.type then a i.type + 1 else a u) acc t
      = acc t + (l.filter (fun i => i.type = t)).length := by
  induction l generalizing acc with
  | nil => simp
  | cons i rest ih =>
    simp only [List.foldl_cons, List.filter_cons]
    rw [ih]
    by_cases h : i.type = t
    · subst h
      simp only [if_pos rfl]
      simp
      omega
    · have h2 : ¬ t = i.type := fun he => h he.symm
      simp [h, h2]

/-- C8: the aggregation keeps only the first occurrence per deduplication key
— radius issues keyed by (nodeId, type, details, message), all other
categories by (nodeId, type, details?) — dropping later duplicates, and every
per-category count is computed over the deduplicated issue list. -/
theorem aggregation_first_occurrence_and_counts (issues : List LintIssue) :
    allUniqueIssues issues = keepFirstPerKey issues ∧
      ∀ t, countsByType (allUniqueIssues issues) t
        = ((allUniqueIssues issues).filter (fun i => i.type = t)).length := by
  constructor
  · show (allDeduplicatedIssues issues).map Prod.snd = _
    rw [allDeduplicatedIssues, allDeduplicatedIssues_foldl]
    simp
  · intro t
    rw [countsByType, countsByType_foldl]
    simp

end Linter
